import Mathlib

/-!
Shallow embedding of the in-memory storage layer (`MemStorage`) of the
Lumina backend (`src/server/storage.ts`), together with proofs of
spec-level properties about it.

Modelling conventions:
* A JS `Map<string, T>` becomes an association list `List (String × T)` in
  insertion order; `Map.set` replaces in place when the key is present and
  appends otherwise (`setA`), `Map.get` is `lookupA`, and
  `Array.from(map.values())` is `valuesA`.
* `randomUUID()` and `new Date()` are nondeterministic inputs of the
  program, so each create operation takes the generated identifier(s) and
  the current timestamp (a `Nat`) as explicit arguments.
* Operations that `throw` are modelled with `Except String`; an `error`
  result carries no store, matching the fact that the exception is raised
  before any mutation, so the caller's store is unchanged on failure.
* `Array.prototype.sort` with a numeric-key comparator is modelled by an
  insertion sort on the key (only the permutation and sortedness of the
  result matter to the properties below, not tie order).
* JS truthiness tests on string filters (`if (filters?.type)`) are
  modelled faithfully: the empty string counts as an absent filter.
* Geographic coordinates are real numbers; IEEE-754 rounding of the JS
  `number` type is abstracted to exact real arithmetic.
-/

namespace Lumina

/-- Lookup in an association list, mirroring `Map.get`. -/
def lookupA {α : Type} (k : String) : List (String × α) → Option α
  | [] => none
  | (k', v) :: rest => if k' = k then some v else lookupA k rest

/-- Insertion into an association list, mirroring `Map.set`: replaces in
place when the key is present, appends otherwise. -/
def setA {α : Type} (k : String) (v : α) : List (String × α) → List (String × α)
  | [] => [(k, v)]
  | (k', v') :: rest => if k' = k then (k, v) :: rest else (k', v') :: setA k v rest

/-- Values of an association list in insertion order, mirroring
`Array.from(map.values())`. -/
def valuesA {α : Type} (l : List (String × α)) : List α := l.map Prod.snd

theorem lookupA_setA {α : Type} (k k' : String) (v : α) (l : List (String × α)) :
    lookupA k (setA k' v l) = if k' = k then some v else lookupA k l := by
  induction l with
  | nil => simp [setA, lookupA]
  | cons hd tl ih =>
    obtain ⟨k₀, v₀⟩ := hd
    by_cases h : k₀ = k'
    · subst h
      by_cases hk : k₀ = k <;> simp [setA, lookupA, hk]
    · by_cases hk : k₀ = k
      · subst hk
        have : ¬ k' = k₀ := fun hc => h hc.symm
        simp [setA, lookupA, h, this]
      · simp [setA, lookupA, h, hk, ih]

theorem lookupA_setA_self {α : Type} (k : String) (v : α) (l : List (String × α)) :
    lookupA k (setA k v l) = some v := by
  simp [lookupA_setA]

theorem setA_of_lookupA_none {α : Type} (k : String) (v : α) (l : List (String × α))
    (h : lookupA k l = none) : setA k v l = l ++ [(k, v)] := by
  induction l with
  | nil => simp [setA]
  | cons hd tl ih =>
    obtain ⟨k₀, v₀⟩ := hd
    by_cases hk : k₀ = k
    · simp [lookupA, hk] at h
    · simp [lookupA, hk] at h
      simp [setA, hk, ih h]

/-- One step of the insertion sort that models
`array.sort((a, b) => key(b) - key(a))` (descending by key). -/
def insertDesc {α : Type} (key : α → Nat) (x : α) : List α → List α
  | [] => [x]
  | y :: ys => if key x ≤ key y then y :: insertDesc key x ys else x :: y :: ys

/-- Insertion sort, descending by key. -/
def sortDesc {α : Type} (key : α → Nat) : List α → List α
  | [] => []
  | x :: xs => insertDesc key x (sortDesc key xs)

/-- One step of the insertion sort ascending by key (models
`array.sort((a, b) => key(a) - key(b))`). -/
def insertAsc {α : Type} (key : α → Nat) (x : α) : List α → List α
  | [] => [x]
  | y :: ys => if key y ≤ key x then y :: insertAsc key x ys else x :: y :: ys

/-- Insertion sort, ascending by key. -/
def sortAsc {α : Type} (key : α → Nat) : List α → List α
  | [] => []
  | x :: xs => insertAsc key x (sortAsc key xs)

theorem insertDesc_perm {α : Type} (key : α → Nat) (x : α) (l : List α) :
    List.Perm (insertDesc key x l) (x :: l) := by
  induction l with
  | nil => exact List.Perm.refl _
  | cons y ys ih =>
    by_cases h : key x ≤ key y
    · simpa [insertDesc, h] using (ih.cons y).trans (List.Perm.swap x y ys)
    · simp [insertDesc, h]

theorem sortDesc_perm {α : Type} (key : α → Nat) (l : List α) :
    List.Perm (sortDesc key l) l := by
  induction l with
  | nil => exact List.Perm.refl _
  | cons x xs ih =>
    exact (insertDesc_perm key x (sortDesc key xs)).trans (ih.cons x)

theorem mem_sortDesc {α : Type} (key : α → Nat) (l : List α) (x : α) :
    x ∈ sortDesc key l ↔ x ∈ l :=
  (sortDesc_perm key l).mem_iff

theorem pairwise_insertDesc {α : Type} (key : α → Nat) (x : α) (l : List α)
    (hl : l.Pairwise (fun a b => key b ≤ key a)) :
    (insertDesc key x l).Pairwise (fun a b => key b ≤ key a) := by
  induction l with
  | nil => simp [insertDesc]
  | cons y ys ih =>
    rw [List.pairwise_cons] at hl
    obtain ⟨hy, hys⟩ := hl
    by_cases h : key x ≤ key y
    · rw [insertDesc, if_pos h, List.pairwise_cons]
      refine ⟨fun z hz => ?_, ih hys⟩
      rcases List.mem_cons.mp ((insertDesc_perm key x ys).mem_iff.mp hz) with hz | hz
      · exact hz ▸ h
      · exact hy z hz
    · rw [insertDesc, if_neg h, List.pairwise_cons]
      have hlt : key y < key x := Nat.lt_of_not_le h
      refine ⟨fun z hz => ?_, List.pairwise_cons.mpr ⟨hy, hys⟩⟩
      rcases List.mem_cons.mp hz with hz | hz
      · exact hz ▸ Nat.le_of_lt hlt
      · exact (hy z hz).trans (Nat.le_of_lt hlt)

theorem sortDesc_pairwise {α : Type} (key : α → Nat) (l : List α) :
    (sortDesc key l).Pairwise (fun a b => key b ≤ key a) := by
  induction l with
  | nil => simp [sortDesc]
  | cons x xs ih => exact pairwise_insertDesc key x (sortDesc key xs) ih

theorem sortDesc_pairwise_lt {α : Type} (key : α → Nat) (l : List α)
    (h : l.Pairwise (fun a b => key a ≠ key b)) :
    (sortDesc key l).Pairwise (fun a b => key b < key a) := by
  have hne : (sortDesc key l).Pairwise (fun a b => key a ≠ key b) :=
    ((sortDesc_perm key l).pairwise_iff (fun hab => Ne.symm hab)).mpr h
  have hle := sortDesc_pairwise key l
  exact (hle.and hne).imp (fun hab => Nat.lt_of_le_of_ne hab.1 (Ne.symm hab.2))

theorem sortDesc_strict_max {α : Type} (key : α → Nat) (l : List α) (x : α)
    (hx : x ∈ l) (h : ∀ y ∈ l, key y < key x ∨ y = x) :
    ∃ t, sortDesc key l = x :: t := by
  have hx' : x ∈ sortDesc key l := (sortDesc_perm key l).mem_iff.mpr hx
  cases heq : sortDesc key l with
  | nil => rw [heq] at hx'; cases hx'
  | cons hd tl =>
    refine ⟨tl, ?_⟩
    rw [heq] at hx'
    have hhd : hd ∈ l := (sortDesc_perm key l).mem_iff.mp (heq ▸ List.mem_cons_self hd tl)
    rcases List.mem_cons.mp hx' with hx1 | hx1
    · rw [hx1]
    · have hpw := sortDesc_pairwise key l
      rw [heq, List.pairwise_cons] at hpw
      have hle : key x ≤ key hd := hpw.1 x hx1
      rcases h hd hhd with hlt | heq'
      · exact absurd hle (Nat.not_le_of_lt hlt)
      · rw [heq']

/-- User entity, field-for-field from the `User` record built by
`createUser` in `storage.ts`. Timestamps are `Nat`. -/
structure User where
  id : String
  name : String
  email : String
  password : String
  userType : String
  phone : Option String
  avatar : Option String
  bio : Option String
  location : Option String
  verified : Bool
  createdAt : Nat
deriving DecidableEq

/-- Input of `createUser` (`InsertUser` in the schema). -/
structure InsertUser where
  name : String
  email : String
  password : String
  userType : String
  phone : Option String
  bio : Option String
  location : Option String
deriving DecidableEq

/-- Geographic location record `{ lat, lng, address }` attached to
organizations. Coordinates are real numbers. -/
structure GeoLocation where
  lat : ℝ
  lng : ℝ
  address : String

/-- Organization entity as built by `createOrganization`. -/
structure Organization where
  id : String
  userId : String
  name : String
  description : Option String
  website : Option String
  documents : List String
  verified : Bool
  createdAt : Nat
  location : Option GeoLocation

/-- Input of `createOrganization` (`InsertOrganization` plus `userId`). -/
structure InsertOrganization where
  userId : String
  name : String
  description : Option String
  website : Option String
  documents : Option (List String)
  location : Option GeoLocation

/-- Donation entity as built by `createDonation`. -/
structure Donation where
  id : String
  donorId : String
  recipientId : Option String
  type : String
  title : String
  description : Option String
  amount : Option String
  quantity : Option Nat
  location : Option String
  images : List String
  status : String
  expiryDate : Option Nat
  createdAt : Nat
deriving DecidableEq

/-- Input of `createDonation` (`InsertDonation` plus `donorId`). -/
structure InsertDonation where
  donorId : String
  type : String
  title : String
  description : Option String
  amount : Option String
  quantity : Option Nat
  location : Option String
  images : Option (List String)
  expiryDate : Option Nat
deriving DecidableEq

/-- Request entity as built by `createRequest`. -/
structure Request where
  id : String
  requesterId : String
  type : String
  title : String
  description : String
  urgency : String
  targetAmount : Option String
  raisedAmount : String
  targetQuantity : Option Nat
  receivedQuantity : Nat
  location : Option String
  images : List String
  status : String
  deadline : Option Nat
  createdAt : Nat
deriving DecidableEq

/-- Input of `createRequest` (`InsertRequest` plus `requesterId`). -/
structure InsertRequest where
  requesterId : String
  type : String
  title : String
  description : String
  urgency : Option String
  targetAmount : Option String
  targetQuantity : Option Nat
  location : Option String
  images : Option (List String)
  deadline : Option Nat
deriving DecidableEq

/-- Activity entity as built by `createActivity`. -/
structure Activity where
  id : String
  organizerId : String
  title : String
  description : String
  location : String
  startTime : Nat
  endTime : Nat
  maxVolunteers : Option Nat
  currentVolunteers : Nat
  skills : List String
  status : String
  createdAt : Nat
deriving DecidableEq

/-- Input of `createActivity` (`InsertActivity` plus `organizerId`). -/
structure InsertActivity where
  organizerId : String
  title : String
  description : String
  location : String
  startTime : Nat
  endTime : Nat
  maxVolunteers : Option Nat
  skills : Option (List String)
deriving DecidableEq

/-- VolunteerRegistration entity as built by `createVolunteerRegistration`. -/
structure VolunteerRegistration where
  id : String
  activityId : String
  volunteerId : String
  status : String
  message : Option String
  createdAt : Nat
deriving DecidableEq

/-- Input of `createVolunteerRegistration`. -/
structure InsertVolunteerRegistration where
  activityId : String
  volunteerId : String
  message : Option String
deriving DecidableEq

/-- Match entity as built by `createMatch`. -/
structure Match where
  id : String
  donationId : Option String
  requestId : Option String
  activityId : Option String
  userId : String
  score : String
  reason : Option String
  status : String
  createdAt : Nat
deriving DecidableEq

/-- Input of `createMatch` (`Omit<Match, 'id' | 'createdAt'>`; the three
reference fields, `reason` and `status` are nullable and defaulted with
`??` in the source). -/
structure MatchInput where
  donationId : Option String
  requestId : Option String
  activityId : Option String
  userId : String
  score : String
  reason : Option String
  status : Option String
deriving DecidableEq

/-- ActivityFeedItem entity as built by `createActivityFeedItem`;
`metadata` is the JS object literal, modelled as a key/value list. -/
structure ActivityFeedItem where
  id : String
  userId : String
  type : String
  title : String
  description : String
  metadata : List (String × String)
  likes : Nat
  comments : Nat
  createdAt : Nat
deriving DecidableEq

/-- Input of `createActivityFeedItem` (`Omit<ActivityFeedItem, 'id' | 'createdAt'>`). -/
structure FeedItemInput where
  userId : String
  type : String
  title : String
  description : String
  metadata : List (String × String)
  likes : Nat
  comments : Nat
deriving DecidableEq

/-- Payment entity as built by `createPayment`. -/
structure Payment where
  id : String
  payerId : String
  recipientId : String
  donationId : Option String
  requestId : Option String
  amount : String
  razorpayPaymentId : Option String
  razorpayOrderId : Option String
  status : String
  createdAt : Nat
deriving DecidableEq

/-- Input of `createPayment` (`InsertPayment` plus `payerId`). -/
structure InsertPayment where
  payerId : String
  recipientId : String
  donationId : Option String
  requestId : Option String
  amount : String
  razorpayPaymentId : Option String
  razorpayOrderId : Option String
  status : String
deriving DecidableEq

/-- Notification entity. Modelled from the spec: the `@shared/schema`
module is not part of the sources, which only show `userId`, `read`,
`id`, `createdAt` and opaque payload fields ("userId, read, ...payload
fields" in §3); the payload is modelled as one opaque `String`. -/
structure Notification where
  id : String
  userId : String
  payload : String
  read : Bool
  createdAt : Nat
deriving DecidableEq

/-- Input of `createNotification` (`Omit<Notification, 'id' | 'createdAt'>`,
which still contains `read`). -/
structure NotificationInput where
  userId : String
  payload : String
  read : Bool
deriving DecidableEq

/-- The whole `MemStorage` state: one JS `Map` per entity kind, in the
order they are declared in the class. -/
structure Store where
  users : List (String × User)
  organizations : List (String × Organization)
  donations : List (String × Donation)
  requests : List (String × Request)
  activities : List (String × Activity)
  volunteerRegistrations : List (String × VolunteerRegistration)
  «matches» : List (String × Match)
  activityFeed : List (String × ActivityFeedItem)
  payments : List (String × Payment)
  notifications : List (String × Notification)

/-- The store of a freshly constructed `MemStorage`. -/
def emptyStore : Store :=
  ⟨[], [], [], [], [], [], [], [], [], []⟩

/-- Partial update (`Partial<User>`): every field of `User` may be present
or absent. A present optional field carries its own `Option` value. -/
structure UserPatch where
  id : Option String
  name : Option String
  email : Option String
  password : Option String
  userType : Option String
  phone : Option (Option String)
  avatar : Option (Option String)
  bio : Option (Option String)
  location : Option (Option String)
  verified : Option Bool
  createdAt : Option Nat
deriving DecidableEq

/-- A `UserPatch` with every field absent. -/
def emptyUserPatch : UserPatch :=
  ⟨none, none, none, none, none, none, none, none, none, none, none⟩

/-- Partial update (`Partial<Donation>`). -/
structure DonationPatch where
  id : Option String
  donorId : Option String
  recipientId : Option (Option String)
  type : Option String
  title : Option String
  description : Option (Option String)
  amount : Option (Option String)
  quantity : Option (Option Nat)
  location : Option (Option String)
  images : Option (List String)
  status : Option String
  expiryDate : Option (Option Nat)
  createdAt : Option Nat
deriving DecidableEq

/-- A `DonationPatch` with every field absent. -/
def emptyDonationPatch : DonationPatch :=
  ⟨none, none, none, none, none, none, none, none, none, none, none, none, none⟩

/-- Partial update (`Partial<Request>`). -/
structure RequestPatch where
  id : Option String
  requesterId : Option String
  type : Option String
  title : Option String
  description : Option String
  urgency : Option String
  targetAmount : Option (Option String)
  raisedAmount : Option String
  targetQuantity : Option (Option Nat)
  receivedQuantity : Option Nat
  location : Option (Option String)
  images : Option (List String)
  status : Option String
  deadline : Option (Option Nat)
  createdAt : Option Nat
deriving DecidableEq

/-- A `RequestPatch` with every field absent. -/
def emptyRequestPatch : RequestPatch :=
  ⟨none, none, none, none, none, none, none, none, none, none, none, none, none,
   none, none⟩

/-- Partial update (`Partial<Activity>`). -/
structure ActivityPatch where
  id : Option String
  organizerId : Option String
  title : Option String
  description : Option String
  location : Option String
  startTime : Option Nat
  endTime : Option Nat
  maxVolunteers : Option (Option Nat)
  currentVolunteers : Option Nat
  skills : Option (List String)
  status : Option String
  createdAt : Option Nat
deriving DecidableEq

/-- An `ActivityPatch` with every field absent. -/
def emptyActivityPatch : ActivityPatch :=
  ⟨none, none, none, none, none, none, none, none, none, none, none, none⟩

/-- Partial update (`Partial<Payment>`). -/
structure PaymentPatch where
  id : Option String
  payerId : Option String
  recipientId : Option String
  donationId : Option (Option String)
  requestId : Option (Option String)
  amount : Option String
  razorpayPaymentId : Option (Option String)
  razorpayOrderId : Option (Option String)
  status : Option String
  createdAt : Option Nat
deriving DecidableEq

/-- A `PaymentPatch` with every field absent. -/
def emptyPaymentPatch : PaymentPatch :=
  ⟨none, none, none, none, none, none, none, none, none, none⟩

/-- The JS spread `{ ...user, ...userUpdate }`: a field present in the
patch overrides, an absent field keeps the prior value. -/
def mergeUser (u : User) (p : UserPatch) : User :=
  { id := p.id.getD u.id
    name := p.name.getD u.name
    email := p.email.getD u.email
    password := p.password.getD u.password
    userType := p.userType.getD u.userType
    phone := p.phone.getD u.phone
    avatar := p.avatar.getD u.avatar
    bio := p.bio.getD u.bio
    location := p.location.getD u.location
    verified := p.verified.getD u.verified
    createdAt := p.createdAt.getD u.createdAt }

/-- The JS spread `{ ...donation, ...donationUpdate }`. -/
def mergeDonation (d : Donation) (p : DonationPatch) : Donation :=
  { id := p.id.getD d.id
    donorId := p.donorId.getD d.donorId
    recipientId := p.recipientId.getD d.recipientId
    type := p.type.getD d.type
    title := p.title.getD d.title
    description := p.description.getD d.description
    amount := p.amount.getD d.amount
    quantity := p.quantity.getD d.quantity
    location := p.location.getD d.location
    images := p.images.getD d.images
    status := p.status.getD d.status
    expiryDate := p.expiryDate.getD d.expiryDate
    createdAt := p.createdAt.getD d.createdAt }

/-- The JS spread `{ ...request, ...requestUpdate }`. -/
def mergeRequest (r : Request) (p : RequestPatch) : Request :=
  { id := p.id.getD r.id
    requesterId := p.requesterId.getD r.requesterId
    type := p.type.getD r.type
    title := p.title.getD r.title
    description := p.description.getD r.description
    urgency := p.urgency.getD r.urgency
    targetAmount := p.targetAmount.getD r.targetAmount
    raisedAmount := p.raisedAmount.getD r.raisedAmount
    targetQuantity := p.targetQuantity.getD r.targetQuantity
    receivedQuantity := p.receivedQuantity.getD r.receivedQuantity
    location := p.location.getD r.location
    images := p.images.getD r.images
    status := p.status.getD r.status
    deadline := p.deadline.getD r.deadline
    createdAt := p.createdAt.getD r.createdAt }

/-- The JS spread `{ ...activity, ...activityUpdate }`. -/
def mergeActivity (a : Activity) (p : ActivityPatch) : Activity :=
  { id := p.id.getD a.id
    organizerId := p.organizerId.getD a.organizerId
    title := p.title.getD a.title
    description := p.description.getD a.description
    location := p.location.getD a.location
    startTime := p.startTime.getD a.startTime
    endTime := p.endTime.getD a.endTime
    maxVolunteers := p.maxVolunteers.getD a.maxVolunteers
    currentVolunteers := p.currentVolunteers.getD a.currentVolunteers
    skills := p.skills.getD a.skills
    status := p.status.getD a.status
    createdAt := p.createdAt.getD a.createdAt }

/-- The JS spread `{ ...payment, ...paymentUpdate }`. -/
def mergePayment (q : Payment) (p : PaymentPatch) : Payment :=
  { id := p.id.getD q.id
    payerId := p.payerId.getD q.payerId
    recipientId := p.recipientId.getD q.recipientId
    donationId := p.donationId.getD q.donationId
    requestId := p.requestId.getD q.requestId
    amount := p.amount.getD q.amount
    razorpayPaymentId := p.razorpayPaymentId.getD q.razorpayPaymentId
    razorpayOrderId := p.razorpayOrderId.getD q.razorpayOrderId
    status := p.status.getD q.status
    createdAt := p.createdAt.getD q.createdAt }

/-- The optional geo filter `{ lat, lng, radius? }` accepted (but ignored)
by the list queries. -/
structure LocationFilter where
  lat : ℝ
  lng : ℝ
  radius : Option ℝ

/-- The `filters` argument of `getDonations`. -/
structure DonationFilters where
  type : Option String
  location : Option LocationFilter

/-- The `filters` argument of `getRequests`. -/
structure RequestFilters where
  type : Option String
  urgency : Option String
  location : Option LocationFilter

/-- The `filters` argument of `getActivities`. -/
structure ActivityFilters where
  location : Option LocationFilter

/-- The `{ lat, lng, radius = 10 }` argument of `getOrganizationsByLocation`. -/
structure GeoQuery where
  lat : ℝ
  lng : ℝ
  radius : Option ℝ

/-- `getUser`: plain map lookup. -/
def getUser (id : String) (s : Store) : Option User :=
  lookupA id s.users

/-- `getUserByEmail`: linear scan for the first user with the given email. -/
def getUserByEmail (email : String) (s : Store) : Option User :=
  (valuesA s.users).find? (fun user => user.email == email)

/-- `createUser`: builds the `User` record (defaults `avatar = null`,
`verified = false`) and stores it under the generated id. -/
def createUser (insertUser : InsertUser) (id : String) (now : Nat) (s : Store) :
    User × Store :=
  let user : User :=
    { id := id
      name := insertUser.name
      email := insertUser.email
      password := insertUser.password
      userType := insertUser.userType
      phone := insertUser.phone
      avatar := none
      bio := insertUser.bio
      location := insertUser.location
      verified := false
      createdAt := now }
  (user, { s with users := setA id user s.users })

/-- `updateUser`: throws `'User not found'` when the id is absent,
otherwise stores and returns `{ ...user, ...userUpdate }`. -/
def updateUser (id : String) (p : UserPatch) (s : Store) :
    Except String (User × Store) :=
  match lookupA id s.users with
  | none => Except.error "User not found"
  | some user =>
    let updatedUser := mergeUser user p
    Except.ok (updatedUser, { s with users := setA id updatedUser s.users })

/-- `createOrganization` (defaults `documents = []`, `verified = false`). -/
def createOrganization (orgData : InsertOrganization) (id : String) (now : Nat)
    (s : Store) : Organization × Store :=
  let organization : Organization :=
    { id := id
      userId := orgData.userId
      name := orgData.name
      description := orgData.description
      website := orgData.website
      documents := orgData.documents.getD []
      verified := false
      createdAt := now
      location := orgData.location }
  (organization, { s with organizations := setA id organization s.organizations })

/-- `getOrganizationByUserId`: linear scan on `userId`. -/
def getOrganizationByUserId (userId : String) (s : Store) : Option Organization :=
  (valuesA s.organizations).find? (fun org => org.userId == userId)

/-- Degrees to radians, `toRad` in the source. -/
noncomputable def toRad (x : ℝ) : ℝ := x * Real.pi / 180

/-- Real-valued model of JS `Math.atan2`. -/
noncomputable def atan2 (y x : ℝ) : ℝ :=
  if 0 < x then Real.arctan (y / x)
  else if x < 0 then
    (if 0 ≤ y then Real.arctan (y / x) + Real.pi else Real.arctan (y / x) - Real.pi)
  else
    (if 0 < y then Real.pi / 2 else if y < 0 then -(Real.pi / 2) else 0)

/-- The `haversine` helper of `getOrganizationsByLocation`: great-circle
distance with mean Earth radius `R = 6371` km. -/
noncomputable def haversine (lat1 lng1 lat2 lng2 : ℝ) : ℝ :=
  let R : ℝ := 6371
  let dLat := toRad (lat2 - lat1)
  let dLng := toRad (lng2 - lng1)
  let a := Real.sin (dLat / 2) * Real.sin (dLat / 2) +
    Real.cos (toRad lat1) * Real.cos (toRad lat2) *
    Real.sin (dLng / 2) * Real.sin (dLng / 2)
  let c := 2 * atan2 (Real.sqrt a) (Real.sqrt (1 - a))
  R * c

/-- `getOrganizationsByLocation`: keeps the organizations that have a
location (the `typeof ... === 'number'` checks always hold in the typed
model) within `haversine` distance `radius` (default 10) of the query. -/
noncomputable def getOrganizationsByLocation (q : GeoQuery) (s : Store) :
    List Organization :=
  (valuesA s.organizations).filter (fun org =>
    match org.location with
    | none => false
    | some loc => decide (haversine q.lat q.lng loc.lat loc.lng ≤ q.radius.getD 10))

/-- `createActivityFeedItem`: spreads the input, adds `id` and `createdAt`,
and stores the item. -/
def createActivityFeedItem (itemData : FeedItemInput) (id : String) (now : Nat)
    (s : Store) : ActivityFeedItem × Store :=
  let item : ActivityFeedItem :=
    { id := id
      userId := itemData.userId
      type := itemData.type
      title := itemData.title
      description := itemData.description
      metadata := itemData.metadata
      likes := itemData.likes
      comments := itemData.comments
      createdAt := now }
  (item, { s with activityFeed := setA id item s.activityFeed })

/-- `createDonation`: builds the donation (defaults `recipientId = null`,
`images = []`, `status = "active"`), stores it, then emits one activity
feed item (`description || ''` only turns `null` into `""`, which
`Option.getD ""` captures because the only falsy string is `""`). -/
def createDonation (donationData : InsertDonation) (id feedId : String) (now : Nat)
    (s : Store) : Donation × Store :=
  let donation : Donation :=
    { id := id
      donorId := donationData.donorId
      recipientId := none
      type := donationData.type
      title := donationData.title
      description := donationData.description
      amount := donationData.amount
      quantity := donationData.quantity
      location := donationData.location
      images := donationData.images.getD []
      status := "active"
      expiryDate := donationData.expiryDate
      createdAt := now }
  let s1 := { s with donations := setA id donation s.donations }
  let fed := createActivityFeedItem
    { userId := donationData.donorId
      type := "donation"
      title := "New donation: " ++ donation.title
      description := donation.description.getD ""
      metadata := [("donationId", id), ("type", donation.type)]
      likes := 0
      comments := 0 } feedId now s1
  (donation, fed.2)

/-- `getDonations`: optional exact-match `type` filter (skipped for the
falsy empty string, mirroring `if (filters?.type)`), then sort by
`createdAt` descending; the `location` filter is never read. -/
def getDonations (filters : Option DonationFilters) (s : Store) : List Donation :=
  let donations := valuesA s.donations
  let donations :=
    match filters with
    | none => donations
    | some f =>
      match f.type with
      | none => donations
      | some t => if t = "" then donations else donations.filter (fun d => d.type == t)
  sortDesc (fun d => d.createdAt) donations

/-- `getDonation`: plain map lookup. -/
def getDonation (id : String) (s : Store) : Option Donation :=
  lookupA id s.donations

/-- `updateDonation`: throws `'Donation not found'` when absent, otherwise
stores and returns `{ ...donation, ...donationUpdate }`. -/
def updateDonation (id : String) (p : DonationPatch) (s : Store) :
    Except String (Donation × Store) :=
  match lookupA id s.donations with
  | none => Except.error "Donation not found"
  | some donation =>
    let updatedDonation := mergeDonation donation p
    Except.ok (updatedDonation,
      { s with donations := setA id updatedDonation s.donations })

/-- `createRequest`: builds the request (defaults `urgency = "medium"`,
`raisedAmount = "0"`, `receivedQuantity = 0`, `status = "active"`),
stores it, then emits one activity feed item. -/
def createRequest (requestData : InsertRequest) (id feedId : String) (now : Nat)
    (s : Store) : Request × Store :=
  let request : Request :=
    { id := id
      requesterId := requestData.requesterId
      type := requestData.type
      title := requestData.title
      description := requestData.description
      urgency := requestData.urgency.getD "medium"
      targetAmount := requestData.targetAmount
      raisedAmount := "0"
      targetQuantity := requestData.targetQuantity
      receivedQuantity := 0
      location := requestData.location
      images := requestData.images.getD []
      status := "active"
      deadline := requestData.deadline
      createdAt := now }
  let s1 := { s with requests := setA id request s.requests }
  let fed := createActivityFeedItem
    { userId := requestData.requesterId
      type := "request"
      title := "New request: " ++ request.title
      description := request.description
      metadata := [("requestId", id), ("urgency", request.urgency)]
      likes := 0
      comments := 0 } feedId now s1
  (request, fed.2)

/-- `getRequests`: optional exact-match `type` and `urgency` filters (each
skipped for the falsy empty string), then sort by `createdAt` descending;
the `location` filter is never read. -/
def getRequests (filters : Option RequestFilters) (s : Store) : List Request :=
  let requests := valuesA s.requests
  let requests :=
    match filters with
    | none => requests
    | some f =>
      match f.type with
      | none => requests
      | some t => if t = "" then requests else requests.filter (fun r => r.type == t)
  let requests :=
    match filters with
    | none => requests
    | some f =>
      match f.urgency with
      | none => requests
      | some u =>
        if u = "" then requests else requests.filter (fun r => r.urgency == u)
  sortDesc (fun r => r.createdAt) requests

/-- `getRequest`: plain map lookup. -/
def getRequest (id : String) (s : Store) : Option Request :=
  lookupA id s.requests

/-- `updateRequest`: throws `'Request not found'` when absent, otherwise
stores and returns `{ ...request, ...requestUpdate }`. -/
def updateRequest (id : String) (p : RequestPatch) (s : Store) :
    Except String (Request × Store) :=
  match lookupA id s.requests with
  | none => Except.error "Request not found"
  | some request =>
    let updatedRequest := mergeRequest request p
    Except.ok (updatedRequest, { s with requests := setA id updatedRequest s.requests })

/-- `createActivity`: builds the activity (defaults `currentVolunteers = 0`,
`skills = []`, `status = "active"`), stores it, then emits one activity
feed item of type `'volunteer'`. -/
def createActivity (activityData : InsertActivity) (id feedId : String) (now : Nat)
    (s : Store) : Activity × Store :=
  let activity : Activity :=
    { id := id
      organizerId := activityData.organizerId
      title := activityData.title
      description := activityData.description
      location := activityData.location
      startTime := activityData.startTime
      endTime := activityData.endTime
      maxVolunteers := activityData.maxVolunteers
      currentVolunteers := 0
      skills := activityData.skills.getD []
      status := "active"
      createdAt := now }
  let s1 := { s with activities := setA id activity s.activities }
  let fed := createActivityFeedItem
    { userId := activityData.organizerId
      type := "volunteer"
      title := "New volunteer opportunity: " ++ activity.title
      description := activity.description
      metadata := [("activityId", id), ("location", activity.location)]
      likes := 0
      comments := 0 } feedId now s1
  (activity, fed.2)

/-- `getActivities`: sort by `startTime` ascending; the `filters` argument
(including its `location`) is never read. -/
def getActivities (filters : Option ActivityFilters) (s : Store) : List Activity :=
  sortAsc (fun a => a.startTime) (valuesA s.activities)

/-- `getActivity`: plain map lookup. -/
def getActivity (id : String) (s : Store) : Option Activity :=
  lookupA id s.activities

/-- `updateActivity`: throws `'Activity not found'` when absent, otherwise
stores and returns `{ ...activity, ...activityUpdate }`. -/
def updateActivity (id : String) (p : ActivityPatch) (s : Store) :
    Except String (Activity × Store) :=
  match lookupA id s.activities with
  | none => Except.error "Activity not found"
  | some activity =>
    let updatedActivity := mergeActivity activity p
    Except.ok (updatedActivity,
      { s with activities := setA id updatedActivity s.activities })

/-- `createVolunteerRegistration` (default `status = "pending"`). -/
def createVolunteerRegistration (registrationData : InsertVolunteerRegistration)
    (id : String) (now : Nat) (s : Store) : VolunteerRegistration × Store :=
  let registration : VolunteerRegistration :=
    { id := id
      activityId := registrationData.activityId
      volunteerId := registrationData.volunteerId
      status := "pending"
      message := registrationData.message
      createdAt := now }
  (registration,
    { s with volunteerRegistrations := setA id registration s.volunteerRegistrations })

/-- `getVolunteerRegistrations`: filter by `volunteerId`, insertion order. -/
def getVolunteerRegistrations (volunteerId : String) (s : Store) :
    List VolunteerRegistration :=
  (valuesA s.volunteerRegistrations).filter (fun r => r.volunteerId == volunteerId)

/-- `getMatches`: filter by `userId`, insertion order. -/
def getMatches (userId : String) (s : Store) : List Match :=
  (valuesA s.«matches»).filter (fun m => m.userId == userId)

/-- `createMatch`: copies the three nullable reference fields from the
input unchanged (`?? null`), defaults `status` to `"pending"`. -/
def createMatch (matchData : MatchInput) (id : String) (now : Nat) (s : Store) :
    Match × Store :=
  let m : Match :=
    { id := id
      donationId := matchData.donationId
      requestId := matchData.requestId
      activityId := matchData.activityId
      userId := matchData.userId
      score := matchData.score
      reason := matchData.reason
      status := matchData.status.getD "pending"
      createdAt := now }
  (m, { s with «matches» := setA id m s.«matches» })

/-- `getActivityFeed(limit = 50)`: sort by `createdAt` descending, then
`slice(0, limit)`. -/
def getActivityFeed (limit : Option Nat) (s : Store) : List ActivityFeedItem :=
  (sortDesc (fun it => it.createdAt) (valuesA s.activityFeed)).take (limit.getD 50)

/-- `createPayment`. -/
def createPayment (paymentData : InsertPayment) (id : String) (now : Nat)
    (s : Store) : Payment × Store :=
  let payment : Payment :=
    { id := id
      payerId := paymentData.payerId
      recipientId := paymentData.recipientId
      donationId := paymentData.donationId
      requestId := paymentData.requestId
      amount := paymentData.amount
      razorpayPaymentId := paymentData.razorpayPaymentId
      razorpayOrderId := paymentData.razorpayOrderId
      status := paymentData.status
      createdAt := now }
  (payment, { s with payments := setA id payment s.payments })

/-- `getPayment`: plain map lookup. -/
def getPayment (id : String) (s : Store) : Option Payment :=
  lookupA id s.payments

/-- `updatePayment`: throws `'Payment not found'` when absent, otherwise
stores and returns `{ ...payment, ...paymentUpdate }`. -/
def updatePayment (id : String) (p : PaymentPatch) (s : Store) :
    Except String (Payment × Store) :=
  match lookupA id s.payments with
  | none => Except.error "Payment not found"
  | some payment =>
    let updatedPayment := mergePayment payment p
    Except.ok (updatedPayment, { s with payments := setA id updatedPayment s.payments })

/-- `getNotifications`: filter by `userId`, sort by `createdAt` descending. -/
def getNotifications (userId : String) (s : Store) : List Notification :=
  sortDesc (fun n => n.createdAt)
    ((valuesA s.notifications).filter (fun n => n.userId == userId))

/-- `createNotification`: spreads the input, then unconditionally sets
`read: false` after the spread, so any caller-supplied `read` is
overwritten. -/
def createNotification (notificationData : NotificationInput) (id : String)
    (now : Nat) (s : Store) : Notification × Store :=
  let notification : Notification :=
    { id := id
      userId := notificationData.userId
      payload := notificationData.payload
      read := false
      createdAt := now }
  (notification, { s with notifications := setA id notification s.notifications })

/-- `markNotificationAsRead`: silent no-op when the id is absent,
otherwise replaces the stored record with `{ ...notification, read: true }`. -/
def markNotificationAsRead (id : String) (s : Store) : Store :=
  match lookupA id s.notifications with
  | none => s
  | some notification =>
    { s with notifications := setA id { notification with read := true } s.notifications }

theorem getD_cases {α : Type} (o : Option α) (d : α) :
    (∀ v, o = some v → o.getD d = v) ∧ (o = none → o.getD d = d) := by
  cases o <;> simp

/-- Field-by-field contract of a shallow merge on `User`: every field
present in the patch takes the patch's value, every absent field keeps
the prior value. -/
def UserPatchApplied (u : User) (p : UserPatch) (r : User) : Prop :=
  (∀ v, p.id = some v → r.id = v) ∧ (p.id = none → r.id = u.id) ∧
  (∀ v, p.name = some v → r.name = v) ∧ (p.name = none → r.name = u.name) ∧
  (∀ v, p.email = some v → r.email = v) ∧ (p.email = none → r.email = u.email) ∧
  (∀ v, p.password = some v → r.password = v) ∧
    (p.password = none → r.password = u.password) ∧
  (∀ v, p.userType = some v → r.userType = v) ∧
    (p.userType = none → r.userType = u.userType) ∧
  (∀ v, p.phone = some v → r.phone = v) ∧ (p.phone = none → r.phone = u.phone) ∧
  (∀ v, p.avatar = some v → r.avatar = v) ∧ (p.avatar = none → r.avatar = u.avatar) ∧
  (∀ v, p.bio = some v → r.bio = v) ∧ (p.bio = none → r.bio = u.bio) ∧
  (∀ v, p.location = some v → r.location = v) ∧
    (p.location = none → r.location = u.location) ∧
  (∀ v, p.verified = some v → r.verified = v) ∧
    (p.verified = none → r.verified = u.verified) ∧
  (∀ v, p.createdAt = some v → r.createdAt = v) ∧
    (p.createdAt = none → r.createdAt = u.createdAt)

theorem mergeUser_applied (u : User) (p : UserPatch) :
    UserPatchApplied u p (mergeUser u p) :=
  ⟨(getD_cases p.id u.id).1, (getD_cases p.id u.id).2,
   (getD_cases p.name u.name).1, (getD_cases p.name u.name).2,
   (getD_cases p.email u.email).1, (getD_cases p.email u.email).2,
   (getD_cases p.password u.password).1, (getD_cases p.password u.password).2,
   (getD_cases p.userType u.userType).1, (getD_cases p.userType u.userType).2,
   (getD_cases p.phone u.phone).1, (getD_cases p.phone u.phone).2,
   (getD_cases p.avatar u.avatar).1, (getD_cases p.avatar u.avatar).2,
   (getD_cases p.bio u.bio).1, (getD_cases p.bio u.bio).2,
   (getD_cases p.location u.location).1, (getD_cases p.location u.location).2,
   (getD_cases p.verified u.verified).1, (getD_cases p.verified u.verified).2,
   (getD_cases p.createdAt u.createdAt).1, (getD_cases p.createdAt u.createdAt).2⟩

/-- Field-by-field contract of a shallow merge on `Donation`. -/
def DonationPatchApplied (d : Donation) (p : DonationPatch) (r : Donation) : Prop :=
  (∀ v, p.id = some v → r.id = v) ∧ (p.id = none → r.id = d.id) ∧
  (∀ v, p.donorId = some v → r.donorId = v) ∧
    (p.donorId = none → r.donorId = d.donorId) ∧
  (∀ v, p.recipientId = some v → r.recipientId = v) ∧
    (p.recipientId = none → r.recipientId = d.recipientId) ∧
  (∀ v, p.type = some v → r.type = v) ∧ (p.type = none → r.type = d.type) ∧
  (∀ v, p.title = some v → r.title = v) ∧ (p.title = none → r.title = d.title) ∧
  (∀ v, p.description = some v → r.description = v) ∧
    (p.description = none → r.description = d.description) ∧
  (∀ v, p.amount = some v → r.amount = v) ∧ (p.amount = none → r.amount = d.amount) ∧
  (∀ v, p.quantity = some v → r.quantity = v) ∧
    (p.quantity = none → r.quantity = d.quantity) ∧
  (∀ v, p.location = some v → r.location = v) ∧
    (p.location = none → r.location = d.location) ∧
  (∀ v, p.images = some v → r.images = v) ∧ (p.images = none → r.images = d.images) ∧
  (∀ v, p.status = some v → r.status = v) ∧ (p.status = none → r.status = d.status) ∧
  (∀ v, p.expiryDate = some v → r.expiryDate = v) ∧
    (p.expiryDate = none → r.expiryDate = d.expiryDate) ∧
  (∀ v, p.createdAt = some v → r.createdAt = v) ∧
    (p.createdAt = none → r.createdAt = d.createdAt)

theorem mergeDonation_applied (d : Donation) (p : DonationPatch) :
    DonationPatchApplied d p (mergeDonation d p) :=
  ⟨(getD_cases p.id d.id).1, (getD_cases p.id d.id).2,
   (getD_cases p.donorId d.donorId).1, (getD_cases p.donorId d.donorId).2,
   (getD_cases p.recipientId d.recipientId).1, (getD_cases p.recipientId d.recipientId).2,
   (getD_cases p.type d.type).1, (getD_cases p.type d.type).2,
   (getD_cases p.title d.title).1, (getD_cases p.title d.title).2,
   (getD_cases p.description d.description).1, (getD_cases p.description d.description).2,
   (getD_cases p.amount d.amount).1, (getD_cases p.amount d.amount).2,
   (getD_cases p.quantity d.quantity).1, (getD_cases p.quantity d.quantity).2,
   (getD_cases p.location d.location).1, (getD_cases p.location d.location).2,
   (getD_cases p.images d.images).1, (getD_cases p.images d.images).2,
   (getD_cases p.status d.status).1, (getD_cases p.status d.status).2,
   (getD_cases p.expiryDate d.expiryDate).1, (getD_cases p.expiryDate d.expiryDate).2,
   (getD_cases p.createdAt d.createdAt).1, (getD_cases p.createdAt d.createdAt).2⟩

/-- Field-by-field contract of a shallow merge on `Request`. -/
def RequestPatchApplied (q : Request) (p : RequestPatch) (r : Request) : Prop :=
  (∀ v, p.id = some v → r.id = v) ∧ (p.id = none → r.id = q.id) ∧
  (∀ v, p.requesterId = some v → r.requesterId = v) ∧
    (p.requesterId = none → r.requesterId = q.requesterId) ∧
  (∀ v, p.type = some v → r.type = v) ∧ (p.type = none → r.type = q.type) ∧
  (∀ v, p.title = some v → r.title = v) ∧ (p.title = none → r.title = q.title) ∧
  (∀ v, p.description = some v → r.description = v) ∧
    (p.description = none → r.description = q.description) ∧
  (∀ v, p.urgency = some v → r.urgency = v) ∧
    (p.urgency = none → r.urgency = q.urgency) ∧
  (∀ v, p.targetAmount = some v → r.targetAmount = v) ∧
    (p.targetAmount = none → r.targetAmount = q.targetAmount) ∧
  (∀ v, p.raisedAmount = some v → r.raisedAmount = v) ∧
    (p.raisedAmount = none → r.raisedAmount = q.raisedAmount) ∧
  (∀ v, p.targetQuantity = some v → r.targetQuantity = v) ∧
    (p.targetQuantity = none → r.targetQuantity = q.targetQuantity) ∧
  (∀ v, p.receivedQuantity = some v → r.receivedQuantity = v) ∧
    (p.receivedQuantity = none → r.receivedQuantity = q.receivedQuantity) ∧
  (∀ v, p.location = some v → r.location = v) ∧
    (p.location = none → r.location = q.location) ∧
  (∀ v, p.images = some v → r.images = v) ∧ (p.images = none → r.images = q.images) ∧
  (∀ v, p.status = some v → r.status = v) ∧ (p.status = none → r.status = q.status) ∧
  (∀ v, p.deadline = some v → r.deadline = v) ∧
    (p.deadline = none → r.deadline = q.deadline) ∧
  (∀ v, p.createdAt = some v → r.createdAt = v) ∧
    (p.createdAt = none → r.createdAt = q.createdAt)

theorem mergeRequest_applied (q : Request) (p : RequestPatch) :
    RequestPatchApplied q p (mergeRequest q p) :=
  ⟨(getD_cases p.id q.id).1, (getD_cases p.id q.id).2,
   (getD_cases p.requesterId q.requesterId).1, (getD_cases p.requesterId q.requesterId).2,
   (getD_cases p.type q.type).1, (getD_cases p.type q.type).2,
   (getD_cases p.title q.title).1, (getD_cases p.title q.title).2,
   (getD_cases p.description q.description).1, (getD_cases p.description q.description).2,
   (getD_cases p.urgency q.urgency).1, (getD_cases p.urgency q.urgency).2,
   (getD_cases p.targetAmount q.targetAmount).1, (getD_cases p.targetAmount q.targetAmount).2,
   (getD_cases p.raisedAmount q.raisedAmount).1, (getD_cases p.raisedAmount q.raisedAmount).2,
   (getD_cases p.targetQuantity q.targetQuantity).1, (getD_cases p.targetQuantity q.targetQuantity).2,
   (getD_cases p.receivedQuantity q.receivedQuantity).1, (getD_cases p.receivedQuantity q.receivedQuantity).2,
   (getD_cases p.location q.location).1, (getD_cases p.location q.location).2,
   (getD_cases p.images q.images).1, (getD_cases p.images q.images).2,
   (getD_cases p.status q.status).1, (getD_cases p.status q.status).2,
   (getD_cases p.deadline q.deadline).1, (getD_cases p.deadline q.deadline).2,
   (getD_cases p.createdAt q.createdAt).1, (getD_cases p.createdAt q.createdAt).2⟩

/-- Field-by-field contract of a shallow merge on `Activity`. -/
def ActivityPatchApplied (a : Activity) (p : ActivityPatch) (r : Activity) : Prop :=
  (∀ v, p.id = some v → r.id = v) ∧ (p.id = none → r.id = a.id) ∧
  (∀ v, p.organizerId = some v → r.organizerId = v) ∧
    (p.organizerId = none → r.organizerId = a.organizerId) ∧
  (∀ v, p.title = some v → r.title = v) ∧ (p.title = none → r.title = a.title) ∧
  (∀ v, p.description = some v → r.description = v) ∧
    (p.description = none → r.description = a.description) ∧
  (∀ v, p.location = some v → r.location = v) ∧
    (p.location = none → r.location = a.location) ∧
  (∀ v, p.startTime = some v → r.startTime = v) ∧
    (p.startTime = none → r.startTime = a.startTime) ∧
  (∀ v, p.endTime = some v → r.endTime = v) ∧
    (p.endTime = none → r.endTime = a.endTime) ∧
  (∀ v, p.maxVolunteers = some v → r.maxVolunteers = v) ∧
    (p.maxVolunteers = none → r.maxVolunteers = a.maxVolunteers) ∧
  (∀ v, p.currentVolunteers = some v → r.currentVolunteers = v) ∧
    (p.currentVolunteers = none → r.currentVolunteers = a.currentVolunteers) ∧
  (∀ v, p.skills = some v → r.skills = v) ∧ (p.skills = none → r.skills = a.skills) ∧
  (∀ v, p.status = some v → r.status = v) ∧ (p.status = none → r.status = a.status) ∧
  (∀ v, p.createdAt = some v → r.createdAt = v) ∧
    (p.createdAt = none → r.createdAt = a.createdAt)

theorem mergeActivity_applied (a : Activity) (p : ActivityPatch) :
    ActivityPatchApplied a p (mergeActivity a p) :=
  ⟨(getD_cases p.id a.id).1, (getD_cases p.id a.id).2,
   (getD_cases p.organizerId a.organizerId).1, (getD_cases p.organizerId a.organizerId).2,
   (getD_cases p.title a.title).1, (getD_cases p.title a.title).2,
   (getD_cases p.description a.description).1, (getD_cases p.description a.description).2,
   (getD_cases p.location a.location).1, (getD_cases p.location a.location).2,
   (getD_cases p.startTime a.startTime).1, (getD_cases p.startTime a.startTime).2,
   (getD_cases p.endTime a.endTime).1, (getD_cases p.endTime a.endTime).2,
   (getD_cases p.maxVolunteers a.maxVolunteers).1, (getD_cases p.maxVolunteers a.maxVolunteers).2,
   (getD_cases p.currentVolunteers a.currentVolunteers).1, (getD_cases p.currentVolunteers a.currentVolunteers).2,
   (getD_cases p.skills a.skills).1, (getD_cases p.skills a.skills).2,
   (getD_cases p.status a.status).1, (getD_cases p.status a.status).2,
   (getD_cases p.createdAt a.createdAt).1, (getD_cases p.createdAt a.createdAt).2⟩

/-- Field-by-field contract of a shallow merge on `Payment`. -/
def PaymentPatchApplied (q : Payment) (p : PaymentPatch) (r : Payment) : Prop :=
  (∀ v, p.id = some v → r.id = v) ∧ (p.id = none → r.id = q.id) ∧
  (∀ v, p.payerId = some v → r.payerId = v) ∧
    (p.payerId = none → r.payerId = q.payerId) ∧
  (∀ v, p.recipientId = some v → r.recipientId = v) ∧
    (p.recipientId = none → r.recipientId = q.recipientId) ∧
  (∀ v, p.donationId = some v → r.donationId = v) ∧
    (p.donationId = none → r.donationId = q.donationId) ∧
  (∀ v, p.requestId = some v → r.requestId = v) ∧
    (p.requestId = none → r.requestId = q.requestId) ∧
  (∀ v, p.amount = some v → r.amount = v) ∧ (p.amount = none → r.amount = q.amount) ∧
  (∀ v, p.razorpayPaymentId = some v → r.razorpayPaymentId = v) ∧
    (p.razorpayPaymentId = none → r.razorpayPaymentId = q.razorpayPaymentId) ∧
  (∀ v, p.razorpayOrderId = some v → r.razorpayOrderId = v) ∧
    (p.razorpayOrderId = none → r.razorpayOrderId = q.razorpayOrderId) ∧
  (∀ v, p.status = some v → r.status = v) ∧ (p.status = none → r.status = q.status) ∧
  (∀ v, p.createdAt = some v → r.createdAt = v) ∧
    (p.createdAt = none → r.createdAt = q.createdAt)

theorem mergePayment_applied (q : Payment) (p : PaymentPatch) :
    PaymentPatchApplied q p (mergePayment q p) :=
  ⟨(getD_cases p.id q.id).1, (getD_cases p.id q.id).2,
   (getD_cases p.payerId q.payerId).1, (getD_cases p.payerId q.payerId).2,
   (getD_cases p.recipientId q.recipientId).1, (getD_cases p.recipientId q.recipientId).2,
   (getD_cases p.donationId q.donationId).1, (getD_cases p.donationId q.donationId).2,
   (getD_cases p.requestId q.requestId).1, (getD_cases p.requestId q.requestId).2,
   (getD_cases p.amount q.amount).1, (getD_cases p.amount q.amount).2,
   (getD_cases p.razorpayPaymentId q.razorpayPaymentId).1, (getD_cases p.razorpayPaymentId q.razorpayPaymentId).2,
   (getD_cases p.razorpayOrderId q.razorpayOrderId).1, (getD_cases p.razorpayOrderId q.razorpayOrderId).2,
   (getD_cases p.status q.status).1, (getD_cases p.status q.status).2,
   (getD_cases p.createdAt q.createdAt).1, (getD_cases p.createdAt q.createdAt).2⟩

/-- Concrete user used by the witnesses. -/
def wUser : User :=
  ⟨"u1", "Alice", "alice@example.org", "hash", "donor", none, none, none, none,
   false, 3⟩

/-- Concrete donation used by the witnesses. -/
def wDonation : Donation :=
  ⟨"d1", "u1", none, "food", "Rice", none, none, some 2, none, [], "active", none, 4⟩

/-- Concrete request used by the witnesses. -/
def wRequest : Request :=
  ⟨"r1", "u1", "food", "Meals", "need meals", "medium", none, "0", none, 0, none,
   [], "active", none, 5⟩

/-- Concrete activity used by the witnesses. -/
def wActivity : Activity :=
  ⟨"a1", "u1", "Cleanup", "beach cleanup", "Beach", 10, 12, none, 0, [], "active", 6⟩

/-- Concrete payment used by the witnesses. -/
def wPayment : Payment :=
  ⟨"p1", "u1", "u2", none, none, "100", none, none, "created", 7⟩

/-- Concrete notification used by the witnesses. -/
def wNotification : Notification :=
  ⟨"n1", "u1", "hello", false, 8⟩

/-- Concrete store holding one record of each updatable entity kind. -/
def wStore : Store :=
  { users := [("u1", wUser)]
    organizations := []
    donations := [("d1", wDonation)]
    requests := [("r1", wRequest)]
    activities := [("a1", wActivity)]
    volunteerRegistrations := []
    «matches» := []
    activityFeed := []
    payments := [("p1", wPayment)]
    notifications := [("n1", wNotification)] }

/-- C2: every update operation (`updateUser`, `updateDonation`,
`updateRequest`, `updateActivity`, `updatePayment`) fails with its
`'<Entity> not found'` error on an identifier absent from the
corresponding map — the error is thrown before any mutation, so the
caller's store is unchanged (an `Except.error` result carries no store) —
and succeeds on any identifier that is present. -/
theorem update_missing_id_fails (s : Store) (id : String) :
    (∀ p, lookupA id s.users = none →
      updateUser id p s = Except.error "User not found") ∧
    (∀ p u, lookupA id s.users = some u →
      ∃ r s', updateUser id p s = Except.ok (r, s')) ∧
    (∀ p, lookupA id s.donations = none →
      updateDonation id p s = Except.error "Donation not found") ∧
    (∀ p d, lookupA id s.donations = some d →
      ∃ r s', updateDonation id p s = Except.ok (r, s')) ∧
    (∀ p, lookupA id s.requests = none →
      updateRequest id p s = Except.error "Request not found") ∧
    (∀ p q, lookupA id s.requests = some q →
      ∃ r s', updateRequest id p s = Except.ok (r, s')) ∧
    (∀ p, lookupA id s.activities = none →
      updateActivity id p s = Except.error "Activity not found") ∧
    (∀ p a, lookupA id s.activities = some a →
      ∃ r s', updateActivity id p s = Except.ok (r, s')) ∧
    (∀ p, lookupA id s.payments = none →
      updatePayment id p s = Except.error "Payment not found") ∧
    (∀ p q, lookupA id s.payments = some q →
      ∃ r s', updatePayment id p s = Except.ok (r, s')) := by
  refine ⟨fun p h => by simp [updateUser, h],
    fun p u h => ⟨mergeUser u p,
      { s with users := setA id (mergeUser u p) s.users }, by simp [updateUser, h]⟩,
    fun p h => by simp [updateDonation, h],
    fun p d h => ⟨mergeDonation d p,
      { s with donations := setA id (mergeDonation d p) s.donations },
      by simp [updateDonation, h]⟩,
    fun p h => by simp [updateRequest, h],
    fun p q h => ⟨mergeRequest q p,
      { s with requests := setA id (mergeRequest q p) s.requests },
      by simp [updateRequest, h]⟩,
    fun p h => by simp [updateActivity, h],
    fun p a h => ⟨mergeActivity a p,
      { s with activities := setA id (mergeActivity a p) s.activities },
      by simp [updateActivity, h]⟩,
    fun p h => by simp [updatePayment, h],
    fun p q h => ⟨mergePayment q p,
      { s with payments := setA id (mergePayment q p) s.payments },
      by simp [updatePayment, h]⟩⟩

/-- Witness for C2 at a concrete store: the unknown id `"zz"` makes every
update fail with its not-found error, and the known ids succeed. -/
theorem update_missing_id_fails_witness :
    (updateUser "zz" emptyUserPatch wStore = Except.error "User not found") ∧
    (∃ r s', updateUser "u1" emptyUserPatch wStore = Except.ok (r, s')) ∧
    (updateDonation "zz" emptyDonationPatch wStore = Except.error "Donation not found") ∧
    (∃ r s', updateDonation "d1" emptyDonationPatch wStore = Except.ok (r, s')) ∧
    (updateRequest "zz" emptyRequestPatch wStore = Except.error "Request not found") ∧
    (∃ r s', updateRequest "r1" emptyRequestPatch wStore = Except.ok (r, s')) ∧
    (updateActivity "zz" emptyActivityPatch wStore = Except.error "Activity not found") ∧
    (∃ r s', updateActivity "a1" emptyActivityPatch wStore = Except.ok (r, s')) ∧
    (updatePayment "zz" emptyPaymentPatch wStore = Except.error "Payment not found") ∧
    (∃ r s', updatePayment "p1" emptyPaymentPatch wStore = Except.ok (r, s')) :=
  ⟨(update_missing_id_fails wStore "zz").1 emptyUserPatch (by decide),
   (update_missing_id_fails wStore "u1").2.1 emptyUserPatch wUser (by decide),
   (update_missing_id_fails wStore "zz").2.2.1 emptyDonationPatch (by decide),
   (update_missing_id_fails wStore "d1").2.2.2.1 emptyDonationPatch wDonation (by decide),
   (update_missing_id_fails wStore "zz").2.2.2.2.1 emptyRequestPatch (by decide),
   (update_missing_id_fails wStore "r1").2.2.2.2.2.1 emptyRequestPatch wRequest (by decide),
   (update_missing_id_fails wStore "zz").2.2.2.2.2.2.1 emptyActivityPatch (by decide),
   (update_missing_id_fails wStore "a1").2.2.2.2.2.2.2.1 emptyActivityPatch wActivity (by decide),
   (update_missing_id_fails wStore "zz").2.2.2.2.2.2.2.2.1 emptyPaymentPatch (by decide),
   (update_missing_id_fails wStore "p1").2.2.2.2.2.2.2.2.2 emptyPaymentPatch wPayment (by decide)⟩

/-- C3: updating a present record returns exactly the record that is
stored afterwards, and the result satisfies the field-by-field merge
contract: patched fields take the patch's value, unpatched fields keep
their prior value — for all five update operations. -/
theorem update_applies_patch (s : Store) (id : String) :
    (∀ p u, lookupA id s.users = some u →
      ∃ r s', updateUser id p s = Except.ok (r, s') ∧
        lookupA id s'.users = some r ∧ UserPatchApplied u p r) ∧
    (∀ p d, lookupA id s.donations = some d →
      ∃ r s', updateDonation id p s = Except.ok (r, s') ∧
        lookupA id s'.donations = some r ∧ DonationPatchApplied d p r) ∧
    (∀ p q, lookupA id s.requests = some q →
      ∃ r s', updateRequest id p s = Except.ok (r, s') ∧
        lookupA id s'.requests = some r ∧ RequestPatchApplied q p r) ∧
    (∀ p a, lookupA id s.activities = some a →
      ∃ r s', updateActivity id p s = Except.ok (r, s') ∧
        lookupA id s'.activities = some r ∧ ActivityPatchApplied a p r) ∧
    (∀ p q, lookupA id s.payments = some q →
      ∃ r s', updatePayment id p s = Except.ok (r, s') ∧
        lookupA id s'.payments = some r ∧ PaymentPatchApplied q p r) := by
  refine ⟨fun p u h => ?_, fun p d h => ?_, fun p q h => ?_, fun p a h => ?_,
    fun p q h => ?_⟩
  · exact ⟨mergeUser u p, { s with users := setA id (mergeUser u p) s.users },
      by simp [updateUser, h], lookupA_setA_self id _ _, mergeUser_applied u p⟩
  · exact ⟨mergeDonation d p,
      { s with donations := setA id (mergeDonation d p) s.donations },
      by simp [updateDonation, h], lookupA_setA_self id _ _, mergeDonation_applied d p⟩
  · exact ⟨mergeRequest q p, { s with requests := setA id (mergeRequest q p) s.requests },
      by simp [updateRequest, h], lookupA_setA_self id _ _, mergeRequest_applied q p⟩
  · exact ⟨mergeActivity a p,
      { s with activities := setA id (mergeActivity a p) s.activities },
      by simp [updateActivity, h], lookupA_setA_self id _ _, mergeActivity_applied a p⟩
  · exact ⟨mergePayment q p, { s with payments := setA id (mergePayment q p) s.payments },
      by simp [updatePayment, h], lookupA_setA_self id _ _, mergePayment_applied q p⟩

/-- Witness for C3 at a concrete store and concrete patches. -/
theorem update_applies_patch_witness :
    (∃ r s', updateUser "u1"
        { emptyUserPatch with name := some "Bob" } wStore = Except.ok (r, s') ∧
      lookupA "u1" s'.users = some r ∧
      UserPatchApplied wUser { emptyUserPatch with name := some "Bob" } r) ∧
    (∃ r s', updateDonation "d1"
        { emptyDonationPatch with status := some "claimed" } wStore = Except.ok (r, s') ∧
      lookupA "d1" s'.donations = some r ∧
      DonationPatchApplied wDonation
        { emptyDonationPatch with status := some "claimed" } r) ∧
    (∃ r s', updateRequest "r1"
        { emptyRequestPatch with urgency := some "high" } wStore = Except.ok (r, s') ∧
      lookupA "r1" s'.requests = some r ∧
      RequestPatchApplied wRequest { emptyRequestPatch with urgency := some "high" } r) ∧
    (∃ r s', updateActivity "a1"
        { emptyActivityPatch with status := some "done" } wStore = Except.ok (r, s') ∧
      lookupA "a1" s'.activities = some r ∧
      ActivityPatchApplied wActivity { emptyActivityPatch with status := some "done" } r) ∧
    (∃ r s', updatePayment "p1"
        { emptyPaymentPatch with status := some "paid" } wStore = Except.ok (r, s') ∧
      lookupA "p1" s'.payments = some r ∧
      PaymentPatchApplied wPayment { emptyPaymentPatch with status := some "paid" } r) :=
  ⟨(update_applies_patch wStore "u1").1 _ wUser (by decide),
   (update_applies_patch wStore "d1").2.1 _ wDonation (by decide),
   (update_applies_patch wStore "r1").2.2.1 _ wRequest (by decide),
   (update_applies_patch wStore "a1").2.2.2.1 _ wActivity (by decide),
   (update_applies_patch wStore "p1").2.2.2.2 _ wPayment (by decide)⟩

/-- A map is well-keyed when every stored record's `id` field equals the
map key it is stored under (the key is the identifier generated at
creation, so well-keyedness says ids were never mutated). -/
def keyed {α : Type} (getId : α → String) (m : List (String × α)) : Prop :=
  ∀ k v, lookupA k m = some v → getId v = k

theorem keyed_nil {α : Type} (getId : α → String) :
    keyed getId ([] : List (String × α)) := by
  intro k v h
  simp [lookupA] at h

theorem keyed_singleton {α : Type} (getId : α → String) (k : String) (v : α)
    (h : getId v = k) : keyed getId [(k, v)] := by
  intro k' v' h'
  simp only [lookupA] at h'
  split at h'
  · rename_i hk
    cases h'
    exact h.trans hk
  · simp at h'

theorem keyed_setA {α : Type} (getId : α → String) (m : List (String × α))
    (h : keyed getId m) (k : String) (v : α) (hv : getId v = k) :
    keyed getId (setA k v m) := by
  intro k' v' h'
  rw [lookupA_setA k' k v m] at h'
  by_cases hk : k = k'
  · rw [if_pos hk] at h'
    cases h'
    exact hv.trans hk
  · rw [if_neg hk] at h'
    exact h k' v' h'

/-- Every map of the store is well-keyed. -/
def WellKeyed (s : Store) : Prop :=
  keyed User.id s.users ∧
  keyed Organization.id s.organizations ∧
  keyed Donation.id s.donations ∧
  keyed Request.id s.requests ∧
  keyed Activity.id s.activities ∧
  keyed VolunteerRegistration.id s.volunteerRegistrations ∧
  keyed Match.id s.«matches» ∧
  keyed ActivityFeedItem.id s.activityFeed ∧
  keyed Payment.id s.payments ∧
  keyed Notification.id s.notifications

/-- Counterexample to C4 as stated: an update whose partial field-set
mentions `id` does mutate the stored identifier. In store `wStore` the
user was created with identifier `"u1"`; after
`updateUser("u1", { id: "x" })` both the returned record and the record
stored under key `"u1"` carry id `"x" ≠ "u1"`. -/
theorem update_overwrites_id_cex :
    ((updateUser "u1" { emptyUserPatch with id := some "x" } wStore).map
      (fun rs => (rs.1.id, (lookupA "u1" rs.2.users).map User.id))) =
      Except.ok ("x", some "x") ∧ "x" ≠ "u1" :=
  ⟨rfl, by decide⟩

/-- C4 (amended): identifiers are never mutated by any operation whose
update partial does not mention the `id` field. Formally: each create
operation stores its record under the freshly generated id with that id
in the record, and every operation preserves well-keyedness — update
operations under the proviso that the patch leaves `id` absent; for a
well-keyed store the record returned by an update also keeps the id it
was created with. -/
theorem ids_never_mutated (s : Store) (h : WellKeyed s) :
    (∀ i id now, WellKeyed (createUser i id now s).2 ∧
      (createUser i id now s).1.id = id) ∧
    (∀ i id now, WellKeyed (createOrganization i id now s).2 ∧
      (createOrganization i id now s).1.id = id) ∧
    (∀ i id fid now, WellKeyed (createDonation i id fid now s).2 ∧
      (createDonation i id fid now s).1.id = id) ∧
    (∀ i id fid now, WellKeyed (createRequest i id fid now s).2 ∧
      (createRequest i id fid now s).1.id = id) ∧
    (∀ i id fid now, WellKeyed (createActivity i id fid now s).2 ∧
      (createActivity i id fid now s).1.id = id) ∧
    (∀ i id now, WellKeyed (createVolunteerRegistration i id now s).2) ∧
    (∀ i id now, WellKeyed (createMatch i id now s).2) ∧
    (∀ i id now, WellKeyed (createActivityFeedItem i id now s).2) ∧
    (∀ i id now, WellKeyed (createPayment i id now s).2) ∧
    (∀ i id now, WellKeyed (createNotification i id now s).2) ∧
    (∀ id (p : UserPatch), p.id = none → ∀ r s',
      updateUser id p s = Except.ok (r, s') → WellKeyed s' ∧ r.id = id) ∧
    (∀ id (p : DonationPatch), p.id = none → ∀ r s',
      updateDonation id p s = Except.ok (r, s') → WellKeyed s' ∧ r.id = id) ∧
    (∀ id (p : RequestPatch), p.id = none → ∀ r s',
      updateRequest id p s = Except.ok (r, s') → WellKeyed s' ∧ r.id = id) ∧
    (∀ id (p : ActivityPatch), p.id = none → ∀ r s',
      updateActivity id p s = Except.ok (r, s') → WellKeyed s' ∧ r.id = id) ∧
    (∀ id (p : PaymentPatch), p.id = none → ∀ r s',
      updatePayment id p s = Except.ok (r, s') → WellKeyed s' ∧ r.id = id) ∧
    (∀ id, WellKeyed (markNotificationAsRead id s)) := by
  obtain ⟨h1, h2, h3, h4, h5, h6, h7, h8, h9, h10⟩ := h
  refine ⟨fun i id now => ⟨⟨keyed_setA _ _ h1 _ _ rfl, h2, h3, h4, h5, h6, h7, h8, h9, h10⟩, rfl⟩,
    fun i id now => ⟨⟨h1, keyed_setA _ _ h2 _ _ rfl, h3, h4, h5, h6, h7, h8, h9, h10⟩, rfl⟩,
    fun i id fid now => ⟨⟨h1, h2, keyed_setA _ _ h3 _ _ rfl, h4, h5, h6, h7,
      keyed_setA _ _ h8 _ _ rfl, h9, h10⟩, rfl⟩,
    fun i id fid now => ⟨⟨h1, h2, h3, keyed_setA _ _ h4 _ _ rfl, h5, h6, h7,
      keyed_setA _ _ h8 _ _ rfl, h9, h10⟩, rfl⟩,
    fun i id fid now => ⟨⟨h1, h2, h3, h4, keyed_setA _ _ h5 _ _ rfl, h6, h7,
      keyed_setA _ _ h8 _ _ rfl, h9, h10⟩, rfl⟩,
    fun i id now => ⟨h1, h2, h3, h4, h5, keyed_setA _ _ h6 _ _ rfl, h7, h8, h9, h10⟩,
    fun i id now => ⟨h1, h2, h3, h4, h5, h6, keyed_setA _ _ h7 _ _ rfl, h8, h9, h10⟩,
    fun i id now => ⟨h1, h2, h3, h4, h5, h6, h7, keyed_setA _ _ h8 _ _ rfl, h9, h10⟩,
    fun i id now => ⟨h1, h2, h3, h4, h5, h6, h7, h8, keyed_setA _ _ h9 _ _ rfl, h10⟩,
    fun i id now => ⟨h1, h2, h3, h4, h5, h6, h7, h8, h9, keyed_setA _ _ h10 _ _ rfl⟩,
    ?_, ?_, ?_, ?_, ?_, ?_⟩
  · intro id p hp r s' heq
    cases hl : lookupA id s.users with
    | none => simp [updateUser, hl] at heq
    | some u =>
      simp only [updateUser, hl] at heq
      obtain ⟨hr, hs⟩ := Prod.mk.injEq .. ▸ Except.ok.inj heq
      have hid : (mergeUser u p).id = id := by
        simp [mergeUser, hp, h1 id u hl]
      subst hs
      exact ⟨⟨keyed_setA _ _ h1 _ _ (hr ▸ hid), h2, h3, h4, h5, h6, h7, h8, h9, h10⟩,
        hr ▸ hid⟩
  · intro id p hp r s' heq
    cases hl : lookupA id s.donations with
    | none => simp [updateDonation, hl] at heq
    | some d =>
      simp only [updateDonation, hl] at heq
      obtain ⟨hr, hs⟩ := Prod.mk.injEq .. ▸ Except.ok.inj heq
      have hid : (mergeDonation d p).id = id := by
        simp [mergeDonation, hp, h3 id d hl]
      subst hs
      exact ⟨⟨h1, h2, keyed_setA _ _ h3 _ _ (hr ▸ hid), h4, h5, h6, h7, h8, h9, h10⟩,
        hr ▸ hid⟩
  · intro id p hp r s' heq
    cases hl : lookupA id s.requests with
    | none => simp [updateRequest, hl] at heq
    | some q =>
      simp only [updateRequest, hl] at heq
      obtain ⟨hr, hs⟩ := Prod.mk.injEq .. ▸ Except.ok.inj heq
      have hid : (mergeRequest q p).id = id := by
        simp [mergeRequest, hp, h4 id q hl]
      subst hs
      exact ⟨⟨h1, h2, h3, keyed_setA _ _ h4 _ _ (hr ▸ hid), h5, h6, h7, h8, h9, h10⟩,
        hr ▸ hid⟩
  · intro id p hp r s' heq
    cases hl : lookupA id s.activities with
    | none => simp [updateActivity, hl] at heq
    | some a =>
      simp only [updateActivity, hl] at heq
      obtain ⟨hr, hs⟩ := Prod.mk.injEq .. ▸ Except.ok.inj heq
      have hid : (mergeActivity a p).id = id := by
        simp [mergeActivity, hp, h5 id a hl]
      subst hs
      exact ⟨⟨h1, h2, h3, h4, keyed_setA _ _ h5 _ _ (hr ▸ hid), h6, h7, h8, h9, h10⟩,
        hr ▸ hid⟩
  · intro id p hp r s' heq
    cases hl : lookupA id s.payments with
    | none => simp [updatePayment, hl] at heq
    | some q =>
      simp only [updatePayment, hl] at heq
      obtain ⟨hr, hs⟩ := Prod.mk.injEq .. ▸ Except.ok.inj heq
      have hid : (mergePayment q p).id = id := by
        simp [mergePayment, hp, h9 id q hl]
      subst hs
      exact ⟨⟨h1, h2, h3, h4, h5, h6, h7, h8, keyed_setA _ _ h9 _ _ (hr ▸ hid), h10⟩,
        hr ▸ hid⟩
  · intro id
    cases hl : lookupA id s.notifications with
    | none => simpa [markNotificationAsRead, hl] using
        ⟨h1, h2, h3, h4, h5, h6, h7, h8, h9, h10⟩
    | some n =>
      have hid : ({ n with read := true } : Notification).id = id := h10 id n hl
      simpa [markNotificationAsRead, hl] using
        ⟨h1, h2, h3, h4, h5, h6, h7, h8, h9, keyed_setA _ _ h10 _ _ hid⟩

/-- The concrete store `wStore` is well-keyed. -/
theorem wStore_wellKeyed : WellKeyed wStore :=
  ⟨keyed_singleton _ _ _ rfl, keyed_nil _, keyed_singleton _ _ _ rfl,
   keyed_singleton _ _ _ rfl, keyed_singleton _ _ _ rfl, keyed_nil _, keyed_nil _,
   keyed_nil _, keyed_singleton _ _ _ rfl, keyed_singleton _ _ _ rfl⟩

/-- The user record of `wStore` after `updateUser("u1", { name: "Al" })`. -/
def wUserRenamed : User :=
  ⟨"u1", "Al", "alice@example.org", "hash", "donor", none, none, none, none,
   false, 3⟩

/-- Witness for the amended C4 at concrete inputs: creating a user keeps
the store well-keyed, and an id-free update of `"u1"` returns a record
still carrying id `"u1"`. -/
theorem ids_never_mutated_witness :
    (WellKeyed (createUser ⟨"Bob", "bob@example.org", "pw", "volunteer", none,
        none, none⟩ "u9" 9 wStore).2 ∧
      (createUser ⟨"Bob", "bob@example.org", "pw", "volunteer", none,
        none, none⟩ "u9" 9 wStore).1.id = "u9") ∧
    (WellKeyed { wStore with users := [("u1", wUserRenamed)] } ∧
      wUserRenamed.id = "u1") ∧
    WellKeyed (markNotificationAsRead "n1" wStore) :=
  ⟨(ids_never_mutated wStore wStore_wellKeyed).1 _ "u9" 9,
   (ids_never_mutated wStore wStore_wellKeyed).2.2.2.2.2.2.2.2.2.2.1 "u1"
     { emptyUserPatch with name := some "Al" } rfl wUserRenamed
     { wStore with users := [("u1", wUserRenamed)] } rfl,
   (ids_never_mutated wStore wStore_wellKeyed).2.2.2.2.2.2.2.2.2.2.2.2.2.2.2 "n1"⟩

/-- Donation used by the C5 counterexample (same timestamp as its sibling). -/
def cexDonationA : Donation :=
  ⟨"dA", "u1", none, "food", "A", none, none, none, none, [], "active", none, 5⟩

/-- Second donation with the same creation timestamp. -/
def cexDonationB : Donation :=
  ⟨"dB", "u1", none, "food", "B", none, none, none, none, [], "active", none, 5⟩

/-- Store with two type-`"food"` donations created at the same timestamp. -/
def cexDonStore : Store :=
  { emptyStore with donations := [("dA", cexDonationA), ("dB", cexDonationB)] }

/-- Counterexample to C5 as stated, on two of its aspects. With the empty
string as type filter (a legal value of the filter), `getDonations`
returns donations whose type is not the filter value, because
`if (filters?.type)` treats `""` as falsy and skips the filter; and with
two donations sharing a creation timestamp the result cannot be sorted
strictly descending. -/
theorem getDonations_claim_cex :
    (cexDonationA ∈ getDonations (some ⟨some "", none⟩) cexDonStore ∧
      cexDonationA.type ≠ "") ∧
    ¬ List.Pairwise (fun a b => b.createdAt < a.createdAt)
      (getDonations (some ⟨some "food", none⟩) cexDonStore) := by
  refine ⟨⟨?_, by decide⟩, ?_⟩
  · decide
  · decide

/-- C5 (amended): for every non-empty type filter `t`, `getDonations`
returns exactly the stored donations of type `t`, sorted by creation
timestamp in descending (non-increasing) order — strictly descending
whenever the stored timestamps are pairwise distinct; without a filter it
returns all stored donations in the same descending order. (The empty
string filter is treated as no filter, and ties in `createdAt` make
strictness impossible, which is what the counterexample exhibits.) -/
theorem getDonations_spec (s : Store) (t : String) (loc : Option LocationFilter)
    (ht : t ≠ "") :
    (∀ d, d ∈ getDonations (some ⟨some t, loc⟩) s ↔
      d ∈ valuesA s.donations ∧ d.type = t) ∧
    List.Pairwise (fun a b => b.createdAt ≤ a.createdAt)
      (getDonations (some ⟨some t, loc⟩) s) ∧
    (∀ d, d ∈ getDonations none s ↔ d ∈ valuesA s.donations) ∧
    List.Pairwise (fun a b => b.createdAt ≤ a.createdAt) (getDonations none s) ∧
    ((valuesA s.donations).Pairwise (fun a b => a.createdAt ≠ b.createdAt) →
      List.Pairwise (fun a b => b.createdAt < a.createdAt)
        (getDonations (some ⟨some t, loc⟩) s) ∧
      List.Pairwise (fun a b => b.createdAt < a.createdAt) (getDonations none s)) := by
  have hdef : getDonations (some ⟨some t, loc⟩) s =
      sortDesc (fun d => d.createdAt)
        ((valuesA s.donations).filter (fun d => d.type == t)) := by
    simp [getDonations, ht]
  have hdef0 : getDonations none s =
      sortDesc (fun d => d.createdAt) (valuesA s.donations) := rfl
  refine ⟨fun d => ?_, ?_, fun d => ?_, ?_, fun hdist => ⟨?_, ?_⟩⟩
  · rw [hdef, mem_sortDesc]
    simp [List.mem_filter]
  · rw [hdef]
    exact sortDesc_pairwise _ _
  · rw [hdef0, mem_sortDesc]
  · rw [hdef0]
    exact sortDesc_pairwise _ _
  · rw [hdef]
    exact sortDesc_pairwise_lt _ _ (hdist.filter _)
  · rw [hdef0]
    exact sortDesc_pairwise_lt _ _ hdist

/-- Witness for the amended C5 at a concrete store with one `"food"`
donation and distinct timestamps. -/
theorem getDonations_spec_witness :
    (wDonation ∈ getDonations (some ⟨some "food", none⟩) wStore ↔
      wDonation ∈ valuesA wStore.donations ∧ wDonation.type = "food") ∧
    List.Pairwise (fun a b => b.createdAt < a.createdAt)
      (getDonations (some ⟨some "food", none⟩) wStore) :=
  ⟨(getDonations_spec wStore "food" none (by decide)).1 wDonation,
   ((getDonations_spec wStore "food" none (by decide)).2.2.2.2
     (by simp [valuesA, wStore])).1⟩

/-- C6: the `location` filter parameter of `getDonations`, `getRequests`
and `getActivities` is accepted but never read: with any location filter
the result is the same sequence as without one. -/
theorem location_filter_noop (s : Store) (t u : Option String)
    (loc : LocationFilter) :
    getDonations (some ⟨t, some loc⟩) s = getDonations (some ⟨t, none⟩) s ∧
    getRequests (some ⟨t, u, some loc⟩) s = getRequests (some ⟨t, u, none⟩) s ∧
    getActivities (some ⟨some loc⟩) s = getActivities (some ⟨none⟩) s ∧
    getActivities (some ⟨some loc⟩) s = getActivities none s :=
  ⟨rfl, rfl, rfl, rfl⟩

/-- C7: `getOrganizationsByLocation` returns exactly the stored
organizations that have a location within `haversine` distance
`radius` (default 10 km) of the query point; organizations lacking
location data are always excluded. (The `typeof ... === 'number'` guards
always hold in the typed model, and IEEE-754 arithmetic is abstracted to
exact real arithmetic.) -/
theorem getOrganizationsByLocation_spec (q : GeoQuery) (s : Store) :
    (∀ o, o ∈ getOrganizationsByLocation q s ↔
      o ∈ valuesA s.organizations ∧ ∃ loc, o.location = some loc ∧
        haversine q.lat q.lng loc.lat loc.lng ≤ q.radius.getD 10) ∧
    (∀ o, o.location = none → o ∉ getOrganizationsByLocation q s) ∧
    getOrganizationsByLocation ⟨q.lat, q.lng, none⟩ s =
      getOrganizationsByLocation ⟨q.lat, q.lng, some 10⟩ s := by
  have hmem : ∀ o, o ∈ getOrganizationsByLocation q s ↔
      o ∈ valuesA s.organizations ∧ ∃ loc, o.location = some loc ∧
        haversine q.lat q.lng loc.lat loc.lng ≤ q.radius.getD 10 := by
    intro o
    rw [getOrganizationsByLocation, List.mem_filter]
    cases h : o.location with
    | none => simp [h]
    | some loc => simp [h]
  refine ⟨hmem, fun o h hmem' => ?_, rfl⟩
  obtain ⟨-, loc, hloc, -⟩ := (hmem o).mp hmem'
  rw [h] at hloc
  cases hloc

/-- Organization without location data, used by the C7 witness. -/
def wOrgNoLoc : Organization :=
  ⟨"o1", "u1", "Helpers", none, none, [], false, 2, none⟩

/-- Store holding only `wOrgNoLoc`. -/
def wOrgStore : Store :=
  { emptyStore with organizations := [("o1", wOrgNoLoc)] }

/-- Witness for C7: an organization with no stored location is excluded
from every location query. -/
theorem getOrganizationsByLocation_spec_witness :
    wOrgNoLoc.location = none ∧
    wOrgNoLoc ∉ getOrganizationsByLocation ⟨0, 0, none⟩ wOrgStore :=
  ⟨rfl, (getOrganizationsByLocation_spec ⟨0, 0, none⟩ wOrgStore).2.1 wOrgNoLoc rfl⟩

/-- C8: `markNotificationAsRead` on an absent identifier completes (it is
a total function) and leaves the store entirely unchanged; on a present
identifier it replaces exactly the stored notification with a copy whose
`read` is `true` and whose every other field is unchanged, leaving all
other maps of the store untouched. -/
theorem markNotificationAsRead_spec (s : Store) (id : String) :
    (lookupA id s.notifications = none → markNotificationAsRead id s = s) ∧
    (∀ n, lookupA id s.notifications = some n →
      (∃ n', lookupA id (markNotificationAsRead id s).notifications = some n' ∧
        n'.read = true ∧ n'.id = n.id ∧ n'.userId = n.userId ∧
        n'.payload = n.payload ∧ n'.createdAt = n.createdAt) ∧
      (markNotificationAsRead id s).notifications =
        setA id { n with read := true } s.notifications ∧
      (markNotificationAsRead id s).users = s.users ∧
      (markNotificationAsRead id s).organizations = s.organizations ∧
      (markNotificationAsRead id s).donations = s.donations ∧
      (markNotificationAsRead id s).requests = s.requests ∧
      (markNotificationAsRead id s).activities = s.activities ∧
      (markNotificationAsRead id s).volunteerRegistrations = s.volunteerRegistrations ∧
      (markNotificationAsRead id s).«matches» = s.«matches» ∧
      (markNotificationAsRead id s).activityFeed = s.activityFeed ∧
      (markNotificationAsRead id s).payments = s.payments) := by
  refine ⟨fun h => by simp [markNotificationAsRead, h], fun n h => ?_⟩
  have hdef : markNotificationAsRead id s =
      { s with notifications := setA id { n with read := true } s.notifications } := by
    simp [markNotificationAsRead, h]
  rw [hdef]
  exact ⟨⟨{ n with read := true }, lookupA_setA_self id _ _, rfl, rfl, rfl, rfl, rfl⟩,
    rfl, rfl, rfl, rfl, rfl, rfl, rfl, rfl, rfl, rfl⟩

/-- Witness for C8 at the concrete store: the unknown id `"zz"` is a pure
no-op, and `"n1"` gets `read = true` with all other fields preserved. -/
theorem markNotificationAsRead_spec_witness :
    markNotificationAsRead "zz" wStore = wStore ∧
    (∃ n', lookupA "n1" (markNotificationAsRead "n1" wStore).notifications = some n' ∧
      n'.read = true ∧ n'.id = wNotification.id ∧ n'.userId = wNotification.userId ∧
      n'.payload = wNotification.payload ∧ n'.createdAt = wNotification.createdAt) :=
  ⟨(markNotificationAsRead_spec wStore "zz").1 (by decide),
   ((markNotificationAsRead_spec wStore "n1").2 wNotification (by decide)).1⟩

/-- At most one of the three reference fields of a `Match` is non-null. -/
def matchRefsAtMostOne (m : Match) : Prop :=
  (m.donationId = none ∧ m.requestId = none) ∨
  (m.donationId = none ∧ m.activityId = none) ∨
  (m.requestId = none ∧ m.activityId = none)

/-- At most one of the three reference fields of a `MatchInput` is non-null. -/
def inputRefsAtMostOne (mi : MatchInput) : Prop :=
  (mi.donationId = none ∧ mi.requestId = none) ∨
  (mi.donationId = none ∧ mi.activityId = none) ∨
  (mi.requestId = none ∧ mi.activityId = none)

theorem valuesA_setA_subset {α : Type} (k : String) (v : α)
    (l : List (String × α)) :
    ∀ x ∈ valuesA (setA k v l), x = v ∨ x ∈ valuesA l := by
  induction l with
  | nil =>
    intro x hx
    simp [setA, valuesA] at hx
    exact Or.inl hx
  | cons hd tl ih =>
    obtain ⟨k', v'⟩ := hd
    intro x hx
    by_cases hk : k' = k
    · simp only [setA, if_pos hk, valuesA, List.map_cons] at hx
      rcases List.mem_cons.mp hx with hx | hx
      · exact Or.inl hx
      · exact Or.inr (List.mem_cons.mpr (Or.inr hx))
    · simp only [setA, if_neg hk, valuesA, List.map_cons] at hx
      rcases List.mem_cons.mp hx with hx | hx
      · exact Or.inr (List.mem_cons.mpr (Or.inl hx))
      · rcases ih x hx with hx | hx
        · exact Or.inl hx
        · exact Or.inr (List.mem_cons.mpr (Or.inr hx))

instance (m : Match) : Decidable (matchRefsAtMostOne m) := by
  unfold matchRefsAtMostOne
  infer_instance

instance (mi : MatchInput) : Decidable (inputRefsAtMostOne mi) := by
  unfold inputRefsAtMostOne
  infer_instance

/-- Counterexample to C9 as stated: `createMatch` performs no validation of
the "at most one reference" convention — an input carrying all three of
`donationId`, `requestId`, `activityId` is stored and returned as-is, so
a match with three non-null references is reachable through the public
operation set. -/
theorem createMatch_multi_refs_cex :
    ¬ matchRefsAtMostOne
        (createMatch ⟨some "d1", some "r1", some "a1", "u1", "1", none, none⟩
          "m1" 1 emptyStore).1 ∧
    lookupA "m1"
        (createMatch ⟨some "d1", some "r1", some "a1", "u1", "1", none, none⟩
          "m1" 1 emptyStore).2.«matches» =
      some (createMatch ⟨some "d1", some "r1", some "a1", "u1", "1", none, none⟩
        "m1" 1 emptyStore).1 := by
  refine ⟨?_, by decide⟩
  decide

/-- C9 (amended): `createMatch` copies the three nullable reference fields
from its input unchanged, so the "at most one reference" property holds
for the created (and stored) match exactly when the input satisfies it,
and it is preserved store-wide: if every stored match has at most one
reference and the input does too, then after `createMatch` every stored
match — and every match returned by `getMatches` — still has at most one
reference. The operation itself does not enforce the convention. -/
theorem createMatch_refs (mi : MatchInput) (id : String) (now : Nat) (s : Store)
    (h : inputRefsAtMostOne mi) :
    matchRefsAtMostOne (createMatch mi id now s).1 ∧
    ((∀ m ∈ valuesA s.«matches», matchRefsAtMostOne m) →
      ∀ m ∈ valuesA (createMatch mi id now s).2.«matches», matchRefsAtMostOne m) ∧
    ((∀ m ∈ valuesA s.«matches», matchRefsAtMostOne m) →
      ∀ uid m, m ∈ getMatches uid (createMatch mi id now s).2 →
        matchRefsAtMostOne m) := by
  have hnew : matchRefsAtMostOne (createMatch mi id now s).1 := by
    rcases h with ⟨h1, h2⟩ | ⟨h1, h2⟩ | ⟨h1, h2⟩
    · exact Or.inl ⟨h1, h2⟩
    · exact Or.inr (Or.inl ⟨h1, h2⟩)
    · exact Or.inr (Or.inr ⟨h1, h2⟩)
  have hstore : (∀ m ∈ valuesA s.«matches», matchRefsAtMostOne m) →
      ∀ m ∈ valuesA (createMatch mi id now s).2.«matches», matchRefsAtMostOne m := by
    intro hall m hm
    rcases valuesA_setA_subset id (createMatch mi id now s).1 s.«matches» m hm with
      hm | hm
    · exact hm ▸ hnew
    · exact hall m hm
  refine ⟨hnew, hstore, fun hall uid m hm => ?_⟩
  have := List.mem_filter.mp hm
  exact hstore hall m this.1

/-- Witness for the amended C9: a single-reference input yields a match
with at most one reference, and an empty store stays clean. -/
theorem createMatch_refs_witness :
    matchRefsAtMostOne
      (createMatch ⟨some "d1", none, none, "u1", "5", none, none⟩ "m1" 1 emptyStore).1 ∧
    (∀ m ∈ valuesA
        (createMatch ⟨some "d1", none, none, "u1", "5", none, none⟩ "m1" 1
          emptyStore).2.«matches», matchRefsAtMostOne m) :=
  ⟨(createMatch_refs ⟨some "d1", none, none, "u1", "5", none, none⟩ "m1" 1 emptyStore
      (by decide)).1,
   (createMatch_refs ⟨some "d1", none, none, "u1", "5", none, none⟩ "m1" 1 emptyStore
      (by decide)).2.1
    (by intro m hm; simp [valuesA, emptyStore] at hm)⟩

/-- C10: `createNotification` sets `read: false` after spreading the
input, so the returned and stored notification has `read = false` for
every input — including one whose `read` field is `true` — while the
payload fields are taken from the input. -/
theorem createNotification_read_false (i : NotificationInput) (id : String)
    (now : Nat) (s : Store) :
    (createNotification i id now s).1.read = false ∧
    lookupA id (createNotification i id now s).2.notifications =
      some (createNotification i id now s).1 ∧
    (createNotification i id now s).1.userId = i.userId ∧
    (createNotification i id now s).1.payload = i.payload ∧
    (createNotification { i with read := true } id now s).1.read = false :=
  ⟨rfl, lookupA_setA_self id _ _, rfl, rfl, rfl⟩

theorem mem_take_cons_of_pos {α : Type} (x : α) (t : List α) (n : Nat)
    (h : 0 < n) : x ∈ (x :: t).take n := by
  cases n with
  | zero => cases h
  | succ m => simp [List.take_succ_cons]

theorem strict_max_mem_sortDesc_take {α : Type} (key : α → Nat) (l : List α)
    (x : α) (hmax : ∀ y ∈ l, key y < key x) (n : Nat) (hn : 0 < n) :
    x ∈ (sortDesc key (l ++ [x])).take n := by
  obtain ⟨t, ht⟩ := sortDesc_strict_max key (l ++ [x]) x
    (List.mem_append_right _ (List.mem_singleton.mpr rfl))
    (fun y hy => by
      rcases List.mem_append.mp hy with hy | hy
      · exact Or.inl (hmax y hy)
      · exact Or.inr (List.mem_singleton.mp hy))
  rw [ht]
  exact mem_take_cons_of_pos x t n hn

/-- The feed item emitted by `createDonation`, spelled out. -/
def donationFeedItem (i : InsertDonation) (id fid : String) (now : Nat) :
    ActivityFeedItem :=
  ⟨fid, i.donorId, "donation", "New donation: " ++ i.title, i.description.getD "",
   [("donationId", id), ("type", i.type)], 0, 0, now⟩

/-- The feed item emitted by `createRequest`, spelled out. -/
def requestFeedItem (i : InsertRequest) (id fid : String) (now : Nat) :
    ActivityFeedItem :=
  ⟨fid, i.requesterId, "request", "New request: " ++ i.title, i.description,
   [("requestId", id), ("urgency", i.urgency.getD "medium")], 0, 0, now⟩

/-- The feed item emitted by `createActivity`, spelled out. -/
def activityFeedItemOf (i : InsertActivity) (id fid : String) (now : Nat) :
    ActivityFeedItem :=
  ⟨fid, i.organizerId, "volunteer", "New volunteer opportunity: " ++ i.title,
   i.description, [("activityId", id), ("location", i.location)], 0, 0, now⟩

/-- C1: provided the generated feed-item id is fresh and the creation
timestamp is newer than every existing feed item (which is how
`randomUUID()` and the wall clock behave), `createDonation`,
`createRequest` and `createActivity` each append exactly one new
`ActivityFeedItem` to the feed map — of type `'donation'`, `'request'`,
`'volunteer'` respectively, whose metadata carries the new entity's id
together with its distinguishing field (`type` / `urgency` / `location`)
— and the item is retrievable via `getActivityFeed` (default limit)
immediately after the create call returns; no other create operation
touches the feed. -/
theorem create_emits_one_feed_item (s : Store) (now : Nat)
    (hmax : ∀ it ∈ valuesA s.activityFeed, it.createdAt < now) :
    (∀ (i : InsertDonation) (id fid : String),
      lookupA fid s.activityFeed = none →
      ∃ it : ActivityFeedItem,
        (createDonation i id fid now s).2.activityFeed =
          s.activityFeed ++ [(fid, it)] ∧
        it.type = "donation" ∧
        ("donationId", id) ∈ it.metadata ∧
        ("type", (createDonation i id fid now s).1.type) ∈ it.metadata ∧
        it ∈ getActivityFeed none (createDonation i id fid now s).2) ∧
    (∀ (i : InsertRequest) (id fid : String),
      lookupA fid s.activityFeed = none →
      ∃ it : ActivityFeedItem,
        (createRequest i id fid now s).2.activityFeed =
          s.activityFeed ++ [(fid, it)] ∧
        it.type = "request" ∧
        ("requestId", id) ∈ it.metadata ∧
        ("urgency", (createRequest i id fid now s).1.urgency) ∈ it.metadata ∧
        it ∈ getActivityFeed none (createRequest i id fid now s).2) ∧
    (∀ (i : InsertActivity) (id fid : String),
      lookupA fid s.activityFeed = none →
      ∃ it : ActivityFeedItem,
        (createActivity i id fid now s).2.activityFeed =
          s.activityFeed ++ [(fid, it)] ∧
        it.type = "volunteer" ∧
        ("activityId", id) ∈ it.metadata ∧
        ("location", (createActivity i id fid now s).1.location) ∈ it.metadata ∧
        it ∈ getActivityFeed none (createActivity i id fid now s).2) ∧
    (∀ i id, (createUser i id now s).2.activityFeed = s.activityFeed) ∧
    (∀ i id, (createOrganization i id now s).2.activityFeed = s.activityFeed) ∧
    (∀ i id, (createVolunteerRegistration i id now s).2.activityFeed =
      s.activityFeed) ∧
    (∀ i id, (createMatch i id now s).2.activityFeed = s.activityFeed) ∧
    (∀ i id, (createPayment i id now s).2.activityFeed = s.activityFeed) ∧
    (∀ i id, (createNotification i id now s).2.activityFeed = s.activityFeed) := by
  refine ⟨?_, ?_, ?_, fun i id => rfl, fun i id => rfl, fun i id => rfl,
    fun i id => rfl, fun i id => rfl, fun i id => rfl⟩
  · intro i id fid hfresh
    have happ : (createDonation i id fid now s).2.activityFeed =
        s.activityFeed ++ [(fid, donationFeedItem i id fid now)] :=
      setA_of_lookupA_none fid (donationFeedItem i id fid now) s.activityFeed hfresh
    have hmem : donationFeedItem i id fid now ∈
        getActivityFeed none (createDonation i id fid now s).2 := by
      have hv : valuesA ((createDonation i id fid now s).2.activityFeed) =
          valuesA s.activityFeed ++ [donationFeedItem i id fid now] := by
        rw [happ]
        simp [valuesA]
      simp only [getActivityFeed]
      rw [hv]
      exact strict_max_mem_sortDesc_take _ _ _ (fun y hy => hmax y hy) _ (by decide)
    exact ⟨donationFeedItem i id fid now, happ, rfl, List.mem_cons_self _ _,
      List.mem_cons.mpr (Or.inr (List.mem_cons_self _ _)), hmem⟩
  · intro i id fid hfresh
    have happ : (createRequest i id fid now s).2.activityFeed =
        s.activityFeed ++ [(fid, requestFeedItem i id fid now)] :=
      setA_of_lookupA_none fid (requestFeedItem i id fid now) s.activityFeed hfresh
    have hmem : requestFeedItem i id fid now ∈
        getActivityFeed none (createRequest i id fid now s).2 := by
      have hv : valuesA ((createRequest i id fid now s).2.activityFeed) =
          valuesA s.activityFeed ++ [requestFeedItem i id fid now] := by
        rw [happ]
        simp [valuesA]
      simp only [getActivityFeed]
      rw [hv]
      exact strict_max_mem_sortDesc_take _ _ _ (fun y hy => hmax y hy) _ (by decide)
    exact ⟨requestFeedItem i id fid now, happ, rfl, List.mem_cons_self _ _,
      List.mem_cons.mpr (Or.inr (List.mem_cons_self _ _)), hmem⟩
  · intro i id fid hfresh
    have happ : (createActivity i id fid now s).2.activityFeed =
        s.activityFeed ++ [(fid, activityFeedItemOf i id fid now)] :=
      setA_of_lookupA_none fid (activityFeedItemOf i id fid now) s.activityFeed hfresh
    have hmem : activityFeedItemOf i id fid now ∈
        getActivityFeed none (createActivity i id fid now s).2 := by
      have hv : valuesA ((createActivity i id fid now s).2.activityFeed) =
          valuesA s.activityFeed ++ [activityFeedItemOf i id fid now] := by
        rw [happ]
        simp [valuesA]
      simp only [getActivityFeed]
      rw [hv]
      exact strict_max_mem_sortDesc_take _ _ _ (fun y hy => hmax y hy) _ (by decide)
    exact ⟨activityFeedItemOf i id fid now, happ, rfl, List.mem_cons_self _ _,
      List.mem_cons.mpr (Or.inr (List.mem_cons_self _ _)), hmem⟩

/-- Donation input used by the C1 witness. -/
def wInsertDonation : InsertDonation :=
  ⟨"u1", "food", "Rice", none, none, none, none, none, none⟩

/-- Request input used by the C1 witness. -/
def wInsertRequest : InsertRequest :=
  ⟨"u1", "food", "Meals", "need meals", none, none, none, none, none, none⟩

/-- Activity input used by the C1 witness. -/
def wInsertActivity : InsertActivity :=
  ⟨"u1", "Cleanup", "beach cleanup", "Beach", 5, 6, none, none⟩

/-- Witness for C1 at the empty store with timestamp 1 and fresh ids. -/
theorem create_emits_one_feed_item_witness :
    (∃ it : ActivityFeedItem,
      (createDonation wInsertDonation "d9" "f9" 1 emptyStore).2.activityFeed =
        emptyStore.activityFeed ++ [("f9", it)] ∧
      it.type = "donation" ∧ ("donationId", "d9") ∈ it.metadata ∧
      ("type", (createDonation wInsertDonation "d9" "f9" 1 emptyStore).1.type)
        ∈ it.metadata ∧
      it ∈ getActivityFeed none
        (createDonation wInsertDonation "d9" "f9" 1 emptyStore).2) ∧
    (∃ it : ActivityFeedItem,
      (createRequest wInsertRequest "r9" "f9" 1 emptyStore).2.activityFeed =
        emptyStore.activityFeed ++ [("f9", it)] ∧
      it.type = "request" ∧ ("requestId", "r9") ∈ it.metadata ∧
      ("urgency", (createRequest wInsertRequest "r9" "f9" 1 emptyStore).1.urgency)
        ∈ it.metadata ∧
      it ∈ getActivityFeed none
        (createRequest wInsertRequest "r9" "f9" 1 emptyStore).2) ∧
    (∃ it : ActivityFeedItem,
      (createActivity wInsertActivity "a9" "f9" 1 emptyStore).2.activityFeed =
        emptyStore.activityFeed ++ [("f9", it)] ∧
      it.type = "volunteer" ∧ ("activityId", "a9") ∈ it.metadata ∧
      ("location", (createActivity wInsertActivity "a9" "f9" 1 emptyStore).1.location)
        ∈ it.metadata ∧
      it ∈ getActivityFeed none
        (createActivity wInsertActivity "a9" "f9" 1 emptyStore).2) :=
  have h := create_emits_one_feed_item emptyStore 1
    (by intro it hmem; simp [valuesA, emptyStore] at hmem)
  ⟨h.1 wInsertDonation "d9" "f9" rfl,
   h.2.1 wInsertRequest "r9" "f9" rfl,
   h.2.2.1 wInsertActivity "a9" "f9" rfl⟩

end Lumina
